import Mathlib

/-!
Verification of the TradeStation client SDK (repository yairkl/TradeStation).

The repository holds two module variants of the same client:
  - src/tradestation/tradestation.py (the package variant, async-flavoured), and
  - src/tradestation.py (the flat variant, thread-plus-requests flavoured).

This file gives a shallow embedding of the authentication and dispatch core of
both variants and proves or refutes the frozen claims about them.  Machine
integers, instants and durations are modelled as Int (seconds); JSON bodies as
a small inductive value type; fallible code returns explicit error components.
Each definition carries a pointer to the source lines it embeds.
-/

/-! ## JSON value model

Python json.loads produces dicts, lists, strings, numbers, booleans and None.
The jdate constructor stands for the ISO-8601 UTC second-precision string that
datetime.replace(microsecond=0).astimezone(timezone.utc).isoformat() yields for
the instant given in epoch seconds. -/

inductive JVal where
  | jnull : JVal
  | jbool (b : Bool) : JVal
  | jnum (n : Int) : JVal
  | jstr (s : String) : JVal
  | jdate (epochSec : Int) : JVal
  | jarr (xs : List JVal) : JVal
  | jobj (fields : List (String × JVal)) : JVal

/-- Python truthiness of a JSON value (used by the `if data:` guards). -/
def JVal.truthy : JVal → Bool
  | .jnull => false
  | .jbool b => b
  | .jnum n => n != 0
  | .jstr s => s != ""
  | .jdate _ => true
  | .jarr xs => !xs.isEmpty
  | .jobj fs => !fs.isEmpty

/-- Python `key in data` on a parsed JSON dict: membership among the keys.
The streaming consumers only apply it to decoded objects. -/
def JVal.hasKey : JVal → String → Bool
  | .jobj fs, k => fs.any (fun p => p.fst == k)
  | _, _ => false

/-- Keys of a JSON object given as an association list, in insertion order
(Python dicts preserve insertion order). -/
def dictKeys (d : List (String × JVal)) : List String := d.map Prod.fst

/-! ## Python helpers -/

/-- Python truthiness of an Optional[str]: None and the empty string are falsy. -/
def pyStrOptFalsy : Option String → Bool
  | none => true
  | some s => s == ""

/-- Python truthiness of an Optional[int]: None and 0 are falsy. -/
def pyIntOptFalsy : Option Int → Bool
  | none => true
  | some n => n == 0

/-- Rendering of an Optional[str] inside an f-string: None renders as the
four-letter text None. -/
def pyStr : Option String → String
  | none => "None"
  | some s => s

/-! ## Token state and token endpoint responses -/

/-- Shared mutable token state of a TradeStation object.  The package variant
stores the expiry instant in the attribute token_expiry, the flat variant in
the attribute expires_in; both are modelled by the single field expires_at,
an absolute instant in epoch seconds. -/
structure TokenState where
  access_token : Option String := none
  refresh_token : Option String := none
  expires_at : Option Int := none
  deriving DecidableEq

/-- JSON body of a token endpoint response: the fields the client reads.
A missing field models a key absent from the JSON object. -/
structure TokenBody where
  access_token : Option String := none
  refresh_token : Option String := none
  expires_in : Option Int := none
  deriving DecidableEq

/-- An HTTP response from the token endpoint: status code and parsed body. -/
structure HttpResponse where
  status : Nat
  body : TokenBody
  deriving DecidableEq

/-- TradeStation._exchange_code_for_token, package variant
(src/tradestation/tradestation.py lines 207-225), restricted to the handling
of the token endpoint response received at instant now.  On status 200 the
code reads body[access_token] and body[refresh_token] by subscript (KeyError
when absent; access_token is assigned before refresh_token is read, so a
missing refresh_token leaves a partially updated state) and sets
token_expiry = now + body.get(expires_in, 1200).  No refresh margin is
subtracted here.  On any other status it raises ValueError.  The second
component is the raised error, none on success. -/
def exchangeCodeForToken (st : TokenState) (now : Int) (resp : HttpResponse) :
    TokenState × Option String :=
  if resp.status == 200 then
    match resp.body.access_token with
    | none => (st, some "KeyError: access_token")
    | some a =>
      match resp.body.refresh_token with
      | none => ({ st with access_token := some a }, some "KeyError: refresh_token")
      | some r =>
        ({ access_token := some a, refresh_token := some r,
           expires_at := some (now + resp.body.expires_in.getD 1200) }, none)
  else (st, some "Error obtaining token")

/-- TradeStation._handle_token_response, flat variant (src/tradestation.py
lines 110-123), at instant now.  On status 200 it reads body[access_token]
and body[refresh_token] by subscript (same partial-update behaviour as the
exchange above) and sets
expires_in = now + body.get(expires_in, 1200) - 5: a fixed five-second
margin is subtracted.  On any other status it raises ValueError.  (The
subsequent loop.call_later call at line 121 passes a datetime where a float
delay is expected and is outside the scope of the token-state claims.) -/
def handleTokenResponse (st : TokenState) (now : Int) (resp : HttpResponse) :
    TokenState × Option String :=
  if resp.status == 200 then
    match resp.body.access_token with
    | none => (st, some "KeyError: access_token")
    | some a =>
      match resp.body.refresh_token with
      | none => ({ st with access_token := some a }, some "KeyError: refresh_token")
      | some r =>
        ({ access_token := some a, refresh_token := some r,
           expires_at := some (now + resp.body.expires_in.getD 1200 - 5) }, none)
  else (st, some "Error obtaining token")

/-- Default of the refresh_token_margin constructor argument of the package
variant (src/tradestation/tradestation.py line 161): 60 seconds. -/
def packageRefreshMarginDefault : Int := 60

/-- Outcome of one refresh call: the token state afterwards, whether an HTTP
request to the token endpoint was issued, and the raised error if any. -/
structure RefreshOutcome where
  state : TokenState
  requested : Bool
  error : Option String
  deriving DecidableEq

/-- TradeStation._refresh_access_token, package variant
(src/tradestation/tradestation.py lines 246-268).  When self.refresh_token is
falsy it raises ValueError before any request is built.  Otherwise line 262
calls self._asend_request(url=TOKEN_URL, data=data, headers=headers), but
_asend_request (lines 321-327) accepts no data keyword argument and no
kwargs, so the call raises TypeError synchronously — before any HTTP request
is issued — leaving the token state unchanged.  The response handling at
lines 263-268 is unreachable dead code (it would also read status_code off
the parsed dict that _asend_request returns).  The now and resp arguments
are therefore never consulted; they are kept so that the refresh entry point
has the same shape in both variants. -/
def refreshAccessToken (st : TokenState) (_now : Int) (_resp : HttpResponse) :
    RefreshOutcome :=
  if pyStrOptFalsy st.refresh_token then
    ⟨st, false, some "No refresh token available"⟩
  else
    ⟨st, false, some "TypeError: unexpected keyword argument data"⟩

/-- TradeStation.refresh_access_token, flat variant (src/tradestation.py lines
96-108), composed with its _handle_token_response (lines 110-123).  The guard
on a falsy refresh_token raises before any request; otherwise the response
received at instant now is handled exactly as handleTokenResponse does,
including the subscript KeyError when the body omits refresh_token (in which
case access_token has already been overwritten). -/
def refreshAccessTokenSync (st : TokenState) (now : Int) (resp : HttpResponse) :
    RefreshOutcome :=
  if pyStrOptFalsy st.refresh_token then
    ⟨st, false, some "No refresh token available"⟩
  else if resp.status == 200 then
    match resp.body.access_token with
    | none => ⟨st, true, some "KeyError: access_token"⟩
    | some a =>
      match resp.body.refresh_token with
      | none => ⟨{ st with access_token := some a }, true, some "KeyError: refresh_token"⟩
      | some r =>
        ⟨{ access_token := some a, refresh_token := some r,
           expires_at := some (now + resp.body.expires_in.getD 1200 - 5) }, true, none⟩
  else ⟨st, true, some "Error obtaining token"⟩

/-! ## Token refresh loop -/

/-- Value of the seconds attribute of a Python timedelta whose total length is
t whole seconds.  Python normalizes timedelta so that 0 <= seconds < 86400
holds and days absorbs the rest; for negative t this wraps, e.g. a timedelta
of -5 seconds has days = -1 and seconds = 86395.  Int.emod matches the Python
% on a positive modulus. -/
def timedeltaSeconds (t : Int) : Int := t % 86400

/-- Sleep duration computed by one iteration of
TradeStation._refresh_token_loop, package variant
(src/tradestation/tradestation.py lines 238-240):
refresh_in = token_expiry - now - refresh_margin followed by
refresh_in = max(refresh_in.seconds, 0).  Note the code reads the seconds
attribute, not total_seconds(). -/
def refreshSleepCode (expiry now margin : Int) : Int :=
  max (timedeltaSeconds (expiry - now - margin)) 0

/-- Sleep duration the specification prescribes for the same iteration:
max(expires_at - now - refresh_margin, 0). -/
def refreshSleepSpec (expiry now margin : Int) : Int :=
  max (expiry - now - margin) 0

/-- One iteration of TradeStation._refresh_token_loop
(src/tradestation/tradestation.py lines 227-244): none when the loop returns
because refresh_token is falsy (terminal condition), otherwise the sleep
duration it passes to asyncio.sleep before calling _refresh_access_token. -/
def refreshTokenLoopIter (refreshToken : Option String) (expiry now margin : Int) :
    Option Int :=
  if pyStrOptFalsy refreshToken then none
  else some (refreshSleepCode expiry now margin)

/-! ## Local redirect listener -/

/-- Observable outcome of one inbound callback GET: the HTTP status answered
to the browser, whether the pending-authorization gate was signaled, and
whether a token exchange was attempted. -/
structure RedirectOutcome where
  status : Nat
  gateSignaled : Bool
  exchangeAttempted : Bool
  deriving DecidableEq

/-- TradeStation._handle_auth_redirect, package variant
(src/tradestation/tradestation.py lines 198-205).  With a code parameter it
awaits the exchange and then sets auth_code_event and answers 200 with the
success page; when the exchange raises, aiohttp turns the unhandled exception
into a 500 answer and the event is never set.  Without a code parameter it
answers web.Response(text=...), whose default status is 200 — not a 400-class
status — and does not set the event.  exchangeOk abstracts whether the token
exchange succeeds. -/
def handleAuthRedirect (query : List (String × String)) (exchangeOk : Bool) :
    RedirectOutcome :=
  match query.lookup "code" with
  | some _ => if exchangeOk then ⟨200, true, true⟩ else ⟨500, false, true⟩
  | none => ⟨200, false, false⟩

/-- OAuthHandler.do_GET, flat variant (src/tradestation.py lines 20-38).
Without a code parameter it calls send_error(400) and returns.  With a code it
first answers 200 with the success page, then exchanges the code; the gate of
this variant is the busy-wait on access_token becoming non-None, which is
released exactly when the exchange succeeds. -/
def oauthHandlerDoGET (query : List (String × String)) (exchangeOk : Bool) :
    RedirectOutcome :=
  match query.lookup "code" with
  | none => ⟨400, false, false⟩
  | some _ => ⟨200, exchangeOk, true⟩

/-! ## Request dispatcher header selection -/

/-- Header mapping of a request; none models passing headers=None. -/
abbrev Headers := List (String × String)

/-- Python truthiness of the Optional[dict] headers argument: None and the
empty dict are falsy. -/
def headersFalsy : Option Headers → Bool
  | none => true
  | some h => h.isEmpty

/-- Header selection of TradeStation._send_request
(src/tradestation/tradestation.py lines 311-313; identically
src/tradestation.py lines 134-138): when the headers argument is falsy the
default Authorization header is attached unconditionally, interpolating the
current access_token through an f-string — even when it is None, producing
the literal text Bearer None. -/
def sendRequestHeaders (accessToken : Option String) (headers : Option Headers) :
    Option Headers :=
  if headersFalsy headers then
    some [("Authorization", "Bearer " ++ pyStr accessToken)]
  else headers

/-- Header selection of TradeStation._asend_request
(src/tradestation/tradestation.py lines 345-346; identically
src/tradestation.py lines 147-148): the default Authorization header is
attached only when the headers argument is falsy and access_token is truthy;
otherwise the headers argument is forwarded unchanged (none means the request
goes out without an Authorization header). -/
def asendRequestHeaders (accessToken : Option String) (headers : Option Headers) :
    Option Headers :=
  if headersFalsy headers && !pyStrOptFalsy accessToken then
    some [("Authorization", "Bearer " ++ pyStr accessToken)]
  else headers

/-- Header selection of TradeStation._stream_request and _astream_request
(src/tradestation/tradestation.py lines 375-376 and 410-411; identically
src/tradestation.py lines 160-161): same guard as the asynchronous send. -/
def streamRequestHeaders (accessToken : Option String) (headers : Option Headers) :
    Option Headers :=
  if headersFalsy headers && !pyStrOptFalsy accessToken then
    some [("Authorization", "Bearer " ++ pyStr accessToken)]
  else headers

/-! ## Streaming -/

/-- Body loop of TradeStation._stream_request on a 200 response
(src/tradestation/tradestation.py lines 380-386; the async twin at lines
416-422 is line-for-line identical): each transport line is skipped when
falsy (empty), otherwise json.loads is applied — modelled by the parse
argument — and the decoded value is yielded; a parse failure raises
ValueError with the offending raw line included, which ends the generator.
The result is the list of yielded values in order, paired with the raised
error message if any. -/
def streamRequestRun (parse : String → Option JVal) :
    List String → List JVal × Option String
  | [] => ([], none)
  | l :: ls =>
    if l == "" then streamRequestRun parse ls
    else
      match parse l with
      | some d =>
        let rest := streamRequestRun parse ls
        (d :: rest.fst, rest.snd)
      | none => ([], some ("Invalid JSON received: " ++ l))

/-- Handler invocation recorded for one decoded streaming object. -/
inductive TickEvent where
  | heartbeat (d : JVal)
  | errorEvent (d : JVal)
  | dataEvent (d : JVal)
  | emptyData

/-- Classification step of TradeStation.stream_tick_bars
(src/tradestation/tradestation.py lines 516-526): a truthy decoded object
goes to the heartbeat handler when it has a Heartbeat key, else to the error
handler when it has an Error key, else to the data handler; a falsy object
goes to the error handler as InvalidData (emptyData here). -/
def dispatchTickBar (d : JVal) : TickEvent :=
  if d.truthy then
    if d.hasKey "Heartbeat" then .heartbeat d
    else if d.hasKey "Error" then .errorEvent d
    else .dataEvent d
  else .emptyData

/-- TradeStation.stream_tick_bars consuming the generator of
_stream_request: every yielded object is dispatched in order; an error raised
by the generator propagates after the preceding yields were handled. -/
def streamTickBarsRun (parse : String → Option JVal) (lines : List String) :
    List TickEvent × Option String :=
  let r := streamRequestRun parse lines
  (r.fst.map dispatchTickBar, r.snd)

/-! ## Bar fetching -/

/-- Value of one query parameter; pdate stands for the ISO-8601 UTC
second-precision rendering of the instant given in epoch seconds. -/
inductive ParamVal where
  | pint (n : Int)
  | pstr (s : String)
  | pdate (epochSec : Int)
  deriving DecidableEq

/-- An outbound REST request: endpoint path and query parameters. -/
structure ApiRequest where
  endpoint : String
  params : List (String × ParamVal)
  deriving DecidableEq

/-- TradeStation.get_bars, package variant
(src/tradestation/tradestation.py lines 428-454); aget_bars at lines 456-483
repeats the same logic verbatim and is covered by the same definition.
Dates are modelled as epoch-second instants (datetime objects are always
truthy in Python, so their truthiness test is isSome; the bars_back int is
falsy when 0).  The guard raises ValueError before any request is built;
otherwise the request that _send_request receives is returned. -/
def getBars (symbol : String) (interval : Int) (unit : String)
    (barsBack : Option Int) (firstDate lastDate : Option Int)
    (sessionTemplate : String) : Except String ApiRequest :=
  if !pyIntOptFalsy barsBack && firstDate.isSome then
    .error "bars_back and first_date should be mutually exclusive. Choose one."
  else
    let barsBack := if pyIntOptFalsy barsBack && firstDate.isNone then some 1 else barsBack
    let params := [("interval", ParamVal.pint interval), ("unit", ParamVal.pstr unit),
                   ("sessiontemplate", ParamVal.pstr sessionTemplate)]
    let params := match firstDate with
      | some fd => params ++ [("firstdate", ParamVal.pdate fd)]
      | none => params ++ [("barsback", ParamVal.pint (barsBack.getD 0))]
    let params := match lastDate with
      | some ld => params ++ [("lastdate", ParamVal.pdate ld)]
      | none => params
    .ok ⟨"marketdata/barcharts/" ++ symbol, params⟩

/-- TradeStation.get_bars, flat variant (src/tradestation.py lines 178-202).
Same mutual-exclusivity guard; the parameter dict lists lastdate up front
(requests drops parameters whose value is None, modelled by omitting the
pair) and renders firstdate through strftime in UTC second precision. -/
def getBarsSync (symbol : String) (interval : Int) (unit : String)
    (barsBack : Option Int) (firstDate lastDate : Option Int)
    (sessionTemplate : String) : Except String ApiRequest :=
  if !pyIntOptFalsy barsBack && firstDate.isSome then
    .error "bars_back and first_date should be mutually exclusive. Choose one."
  else
    let barsBack := if pyIntOptFalsy barsBack && firstDate.isNone then some 1 else barsBack
    let params := [("interval", ParamVal.pint interval), ("unit", ParamVal.pstr unit)]
    let params := match lastDate with
      | some ld => params ++ [("lastdate", ParamVal.pdate ld)]
      | none => params
    let params := params ++ [("sessiontemplate", ParamVal.pstr sessionTemplate)]
    let params := match firstDate with
      | some fd => params ++ [("firstdate", ParamVal.pdate fd)]
      | none => params ++ [("barsback", ParamVal.pint (barsBack.getD 0))]
    .ok ⟨"marketdata/barcharts/" ++ symbol, params⟩

/-! ## Order serialization -/

/-- Order (src/tradestation/tradestation.py lines 45-103): constructor
arguments with their defaults.  Datetime-valued fields carry epoch-second
instants; list- and dict-valued advanced fields carry their JSON images. -/
structure Order where
  account_id : String
  symbol : String
  quantity : String
  order_type : String
  trade_action : String
  time_in_force_duration : String
  time_in_force_expiration : Option Int := none
  route : Option String := some "Intelligent"
  limit_price : Option String := none
  stop_price : Option String := none
  add_liquidity : Option Bool := none
  all_or_none : Option Bool := none
  book_only : Option Bool := none
  discretionary_price : Option String := none
  market_activation_rules : Option (List JVal) := none
  non_display : Option Bool := none
  peg_value : Option String := none
  show_only_quantity : Option String := none
  time_activation_rules : Option (List JVal) := none
  trailing_stop : Option JVal := none
  buying_power_warning : Option String := none
  order_confirm_id : Option String := none

/-- JSON image of an Optional[str] field serialized unconditionally
(None becomes JSON null). -/
def jstrOpt : Option String → JVal
  | none => JVal.jnull
  | some s => JVal.jstr s

/-- Order.to_dict (src/tradestation/tradestation.py lines 105-155).  The base
dict lists AccountID, Symbol, Quantity, OrderType, TradeAction, TimeInForce
and Route in insertion order; Route is always present since the constructor
defaults it to Intelligent.  A truthy time_in_force_expiration adds
Expiration inside TimeInForce; truthy limit and stop prices are appended;
advanced options are collected under is-not-None checks and attached as
AdvancedOptions only when at least one is set; a truthy order_confirm_id
appends OrderConfirmID last. -/
def Order.to_dict (o : Order) : List (String × JVal) :=
  let tif : List (String × JVal) :=
    [("Duration", JVal.jstr o.time_in_force_duration)] ++
      (match o.time_in_force_expiration with
       | some e => [("Expiration", JVal.jdate e)]
       | none => [])
  let d : List (String × JVal) :=
    [("AccountID", JVal.jstr o.account_id),
     ("Symbol", JVal.jstr o.symbol),
     ("Quantity", JVal.jstr o.quantity),
     ("OrderType", JVal.jstr o.order_type),
     ("TradeAction", JVal.jstr o.trade_action),
     ("TimeInForce", JVal.jobj tif),
     ("Route", jstrOpt o.route)]
  let d := d ++ (if pyStrOptFalsy o.limit_price then []
                 else [("LimitPrice", JVal.jstr (o.limit_price.getD ""))])
  let d := d ++ (if pyStrOptFalsy o.stop_price then []
                 else [("StopPrice", JVal.jstr (o.stop_price.getD ""))])
  let adv : List (String × JVal) :=
    (match o.add_liquidity with | some b => [("AddLiquidity", JVal.jbool b)] | none => []) ++
    (match o.all_or_none with | some b => [("AllOrNone", JVal.jbool b)] | none => []) ++
    (match o.book_only with | some b => [("BookOnly", JVal.jbool b)] | none => []) ++
    (match o.discretionary_price with
     | some s => [("DiscretionaryPrice", JVal.jstr s)] | none => []) ++
    (match o.market_activation_rules with
     | some xs => [("MarketActivationRules", JVal.jarr xs)] | none => []) ++
    (match o.non_display with | some b => [("NonDisplay", JVal.jbool b)] | none => []) ++
    (match o.peg_value with | some s => [("PegValue", JVal.jstr s)] | none => []) ++
    (match o.show_only_quantity with
     | some s => [("ShowOnlyQuantity", JVal.jstr s)] | none => []) ++
    (match o.time_activation_rules with
     | some xs => [("TimeActivationRules", JVal.jarr xs)] | none => []) ++
    (match o.trailing_stop with | some t => [("TrailingStop", t)] | none => []) ++
    (match o.buying_power_warning with
     | some s => [("BuyingPowerWarning", JVal.jstr s)] | none => [])
  let d := if adv.isEmpty then d else d ++ [("AdvancedOptions", JVal.jobj adv)]
  if pyStrOptFalsy o.order_confirm_id then d
  else d ++ [("OrderConfirmID", JVal.jstr (o.order_confirm_id.getD ""))]

/-- An Order built from the six required constructor arguments only, every
optional argument left at its default. -/
def minimalOrder (acct sym qty ot ta dur : String) : Order :=
  { account_id := acct
    symbol := sym
    quantity := qty
    order_type := ot
    trade_action := ta
    time_in_force_duration := dur }

/-! ## Account-scoped brokerage endpoints -/

/-- Argument accepted as Union[str, List[str]] by the account-scoped
brokerage operations. -/
abbrev AccountsArg := String ⊕ List String

/-- Normalization shared by all account-scoped operations
(e.g. src/tradestation/tradestation.py lines 583-585): a plain string is
wrapped into a one-element list, then the list is joined with commas. -/
def normalizeAccounts : AccountsArg → String
  | .inl s => String.intercalate "," [s]
  | .inr l => String.intercalate "," l

/-- Python truthiness of the Optional[Union[str, List[str]]] symbol argument
of the position fetches: None, the empty string and the empty list are falsy. -/
def symbolArgFalsy : Option AccountsArg → Bool
  | none => true
  | some (.inl s) => s == ""
  | some (.inr l) => l.isEmpty

/-- TradeStation.get_balances (src/tradestation/tradestation.py lines
581-586). -/
def getBalancesRequest (accounts : AccountsArg) : ApiRequest :=
  ⟨"brokerage/accounts/" ++ normalizeAccounts accounts ++ "/balances", []⟩

/-- TradeStation.aget_balances (src/tradestation/tradestation.py lines
588-593), textually the same request construction. -/
def agetBalancesRequest (accounts : AccountsArg) : ApiRequest :=
  ⟨"brokerage/accounts/" ++ normalizeAccounts accounts ++ "/balances", []⟩

/-- TradeStation.get_orders (src/tradestation/tradestation.py lines
595-605). -/
def getOrdersRequest (accounts : AccountsArg) : ApiRequest :=
  ⟨"brokerage/accounts/" ++ normalizeAccounts accounts ++ "/orders", []⟩

/-- TradeStation.aget_orders (src/tradestation/tradestation.py lines
607-616), textually the same request construction. -/
def agetOrdersRequest (accounts : AccountsArg) : ApiRequest :=
  ⟨"brokerage/accounts/" ++ normalizeAccounts accounts ++ "/orders", []⟩

/-- TradeStation.get_order_by_id (src/tradestation/tradestation.py lines
618-630); order ids are normalized exactly like accounts. -/
def getOrderByIdRequest (accounts : AccountsArg) (orderIds : AccountsArg) :
    ApiRequest :=
  ⟨"brokerage/accounts/" ++ normalizeAccounts accounts ++ "/orders/" ++
    normalizeAccounts orderIds, []⟩

/-- TradeStation.aget_order_by_id (src/tradestation/tradestation.py lines
632-644), textually the same request construction. -/
def agetOrderByIdRequest (accounts : AccountsArg) (orderIds : AccountsArg) :
    ApiRequest :=
  ⟨"brokerage/accounts/" ++ normalizeAccounts accounts ++ "/orders/" ++
    normalizeAccounts orderIds, []⟩

/-- TradeStation.get_positions (src/tradestation/tradestation.py lines
646-663): a truthy symbol argument is normalized the same way and sent as the
symbol query parameter. -/
def getPositionsRequest (accounts : AccountsArg) (symbol : Option AccountsArg) :
    ApiRequest :=
  ⟨"brokerage/accounts/" ++ normalizeAccounts accounts ++ "/positions",
    match symbol with
    | none => []
    | some s =>
      if symbolArgFalsy (some s) then []
      else [("symbol", ParamVal.pstr (normalizeAccounts s))]⟩

/-- TradeStation.aget_positions (src/tradestation/tradestation.py lines
665-682), textually the same request construction. -/
def agetPositionsRequest (accounts : AccountsArg) (symbol : Option AccountsArg) :
    ApiRequest :=
  ⟨"brokerage/accounts/" ++ normalizeAccounts accounts ++ "/positions",
    match symbol with
    | none => []
    | some s =>
      if symbolArgFalsy (some s) then []
      else [("symbol", ParamVal.pstr (normalizeAccounts s))]⟩

/-! ## Concrete fixtures used by counterexamples and witnesses -/

/-- Token state created empty at construction. -/
def emptyTokenState : TokenState := {}

/-- A 200 token response carrying access token A, refresh token R and a
60-second lifetime. -/
def exchResp60 : HttpResponse := ⟨200, ⟨some "A", some "R", some 60⟩⟩

/-- A fully populated token state prior to a refresh. -/
def priorState : TokenState := ⟨some "A1", some "R1", some 100⟩

/-- A 200 refresh response in which the provider rotates the refresh token
to R2. -/
def rotResp : HttpResponse := ⟨200, ⟨some "A2", some "R2", some 60⟩⟩

/-- A callback query string carrying no code parameter. -/
def noCodeQuery : List (String × String) := [("state", "xyzv")]

/-- First transport line of the streaming scenario. -/
def heartbeatLine : String := "\x7b\x22Heartbeat\x22:1\x7d"

/-- Third transport line of the streaming scenario. -/
def barLine : String := "\x7b\x22Bar\x22:\x22X\x22\x7d"

/-- Fourth, malformed transport line of the streaming scenario. -/
def malformedLine : String := "not-json"

/-- Decoded JSON value of the heartbeat line. -/
def heartbeatVal : JVal := .jobj [("Heartbeat", .jnum 1)]

/-- Decoded JSON value of the bar line. -/
def barVal : JVal := .jobj [("Bar", .jstr "X")]

/-- A concrete json.loads model for the streaming scenario lines. -/
def tickParseExample : String → Option JVal := fun l =>
  if l == heartbeatLine then some heartbeatVal
  else if l == barLine then some barVal
  else none

/-! ## Claims -/

/-- Claim C1, counterexample.  At instant T = 0 the package-variant token
exchange receives a 200 response with expires_in = 60; the resulting state
has access_token A but expires_at = 60 = T + N, not
T + N - refresh_margin = 0 with the configured default margin of 60 seconds.
The claim as stated is therefore false on the code. -/
theorem C1_expiry_margin_counterexample :
    (exchangeCodeForToken emptyTokenState 0 exchResp60).fst.access_token = some "A" ∧
    (exchangeCodeForToken emptyTokenState 0 exchResp60).fst.expires_at = some 60 ∧
    (exchangeCodeForToken emptyTokenState 0 exchResp60).fst.expires_at ≠
      some (0 + 60 - packageRefreshMarginDefault) :=
  ⟨rfl, rfl, by decide⟩

/-- Claim C1, amended.  For every successful token exchange (status 200 with
access token A, refresh token R, expires_in N at instant T): the package
variant stores access_token = A and expires_at = T + N with no margin
subtracted (its refresh margin is applied only by the refresh loop), while
the flat variant stores access_token = A and expires_at = T + N - 5 with a
fixed five-second margin; in both, N defaults to 1200 when the response
omits expires_in. -/
theorem C1_expiry_amended (st : TokenState) (now : Int) (a r : String) (n : Option Int) :
    exchangeCodeForToken st now ⟨200, ⟨some a, some r, n⟩⟩ =
      (⟨some a, some r, some (now + n.getD 1200)⟩, none) ∧
    handleTokenResponse st now ⟨200, ⟨some a, some r, n⟩⟩ =
      (⟨some a, some r, some (now + n.getD 1200 - 5)⟩, none) ∧
    (exchangeCodeForToken st now ⟨200, ⟨some a, some r, none⟩⟩).fst.expires_at =
      some (now + 1200) ∧
    (handleTokenResponse st now ⟨200, ⟨some a, some r, none⟩⟩).fst.expires_at =
      some (now + 1200 - 5) :=
  ⟨rfl, rfl, rfl, rfl⟩

/-- Claim C2: the package variant cannot exhibit the claimed behaviour at
all — with a refresh token held, _refresh_access_token passes the
unsupported data keyword to _asend_request and raises TypeError before any
HTTP request is issued, so no refresh of that variant ever receives a 200
response and a provider-rotated refresh token can never be stored (the dead
handler at lines 263-266 would moreover update only access_token and
token_expiry).  The flat variant, whose refresh does execute, stores the
supplied rotated token on a 200 response and keeps the prior one — raising
KeyError — when the response omits it.  Evaluated at the failing input:
prior state (A1, R1, 100) and a 200 response rotating the token to R2. -/
theorem C2_refresh_typeerror :
    refreshAccessToken priorState 1000 rotResp =
      ⟨priorState, false, some "TypeError: unexpected keyword argument data"⟩ ∧
    (refreshAccessTokenSync priorState 1000 rotResp).error = none ∧
    (refreshAccessTokenSync priorState 1000 rotResp).state.refresh_token = some "R2" ∧
    (refreshAccessTokenSync priorState 1000 ⟨200, ⟨some "A2", none, some 60⟩⟩).error =
      some "KeyError: refresh_token" ∧
    (refreshAccessTokenSync priorState 1000 ⟨200, ⟨some "A2", none, some 60⟩⟩).state.refresh_token =
      priorState.refresh_token :=
  ⟨rfl, rfl, rfl, rfl, rfl⟩

/-- Claim C3: for a streaming call whose transport yields the heartbeat line,
a blank line, the bar line and a malformed line, in order: the heartbeat
handler fires exactly once, the blank line is skipped, exactly one data item
is dispatched, and the malformed line raises an error carrying the offending
raw line and ends the stream with no further items. -/
theorem C3_stream_sequence (parse : String → Option JVal)
    (h1 : parse heartbeatLine = some heartbeatVal)
    (h2 : parse barLine = some barVal)
    (h3 : parse malformedLine = none) :
    streamTickBarsRun parse [heartbeatLine, "", barLine, malformedLine] =
      ([TickEvent.heartbeat heartbeatVal, TickEvent.dataEvent barVal],
        some ("Invalid JSON received: " ++ malformedLine)) := by
  simp only [heartbeatLine] at h1
  simp only [barLine] at h2
  simp only [malformedLine] at h3
  simp [streamTickBarsRun, streamRequestRun, h1, h2, h3, dispatchTickBar, JVal.truthy,
    JVal.hasKey, heartbeatVal, barVal, heartbeatLine, barLine, malformedLine]

/-- Claim C3, witness at the concrete json.loads model. -/
theorem C3_stream_sequence_witness :
    streamTickBarsRun tickParseExample [heartbeatLine, "", barLine, malformedLine] =
      ([TickEvent.heartbeat heartbeatVal, TickEvent.dataEvent barVal],
        some ("Invalid JSON received: " ++ malformedLine)) :=
  C3_stream_sequence tickParseExample rfl rfl rfl

/-- Claim C4, counterexample.  The blocking dispatcher _send_request with no
explicit headers and an absent access token still attaches an Authorization
header, with the interpolated text Bearer None — the request is not issued
without an Authorization header as claimed. -/
theorem C4_default_headers_counterexample :
    sendRequestHeaders none none = some [("Authorization", "Bearer None")] ∧
    "Authorization" ∈ ((sendRequestHeaders none none).getD []).map Prod.fst :=
  ⟨rfl, by decide⟩

/-- Claim C4, amended.  With no explicit headers: the suspendable and
streaming dispatchers attach Authorization: Bearer <access_token> exactly
when access_token is present (truthy) and otherwise forward no headers, as
the claim states; the blocking _send_request however always attaches the
default header, interpolating an absent token as the text Bearer None. -/
theorem C4_default_headers_amended (t : String) (ht : t ≠ "") :
    asendRequestHeaders none none = none ∧
    streamRequestHeaders none none = none ∧
    asendRequestHeaders (some t) none = some [("Authorization", "Bearer " ++ t)] ∧
    streamRequestHeaders (some t) none = some [("Authorization", "Bearer " ++ t)] ∧
    sendRequestHeaders none none = some [("Authorization", "Bearer None")] ∧
    sendRequestHeaders (some t) none = some [("Authorization", "Bearer " ++ t)] := by
  refine ⟨rfl, rfl, ?_, ?_, rfl, rfl⟩ <;>
    simp [asendRequestHeaders, streamRequestHeaders, headersFalsy, pyStrOptFalsy, pyStr, ht]

/-- Claim C4, witness for the amended theorem at a concrete token. -/
theorem C4_default_headers_witness :
    asendRequestHeaders none none = none ∧
    streamRequestHeaders none none = none ∧
    asendRequestHeaders (some "tok") none = some [("Authorization", "Bearer " ++ "tok")] ∧
    streamRequestHeaders (some "tok") none = some [("Authorization", "Bearer " ++ "tok")] ∧
    sendRequestHeaders none none = some [("Authorization", "Bearer None")] ∧
    sendRequestHeaders (some "tok") none = some [("Authorization", "Bearer " ++ "tok")] :=
  C4_default_headers_amended "tok" (by decide)

/-- Claim C5: a refresh attempted while no refresh token is held fails with
the no-refresh-token error, issues no HTTP request, and leaves the stored
token state unchanged — in both variants. -/
theorem C5_refresh_without_token (st : TokenState) (now : Int) (resp : HttpResponse)
    (h : st.refresh_token = none) :
    refreshAccessToken st now resp = ⟨st, false, some "No refresh token available"⟩ ∧
    refreshAccessTokenSync st now resp = ⟨st, false, some "No refresh token available"⟩ := by
  constructor <;> simp [refreshAccessToken, refreshAccessTokenSync, pyStrOptFalsy, h]

/-- Claim C5, witness at the freshly constructed empty token state. -/
theorem C5_refresh_without_token_witness :
    refreshAccessToken emptyTokenState 0 exchResp60 =
      ⟨emptyTokenState, false, some "No refresh token available"⟩ ∧
    refreshAccessTokenSync emptyTokenState 0 exchResp60 =
      ⟨emptyTokenState, false, some "No refresh token available"⟩ :=
  C5_refresh_without_token emptyTokenState 0 exchResp60 rfl

/-- Claim C6, counterexample.  A callback without a code parameter makes the
package-variant listener answer status 200 — not a 400-class status — so the
claim as stated is false; the gate is indeed not signaled. -/
theorem C6_no_code_counterexample :
    (handleAuthRedirect noCodeQuery true).status = 200 ∧
    ¬ (400 ≤ (handleAuthRedirect noCodeQuery true).status ∧
        (handleAuthRedirect noCodeQuery true).status < 500) ∧
    (handleAuthRedirect noCodeQuery true).gateSignaled = false :=
  ⟨rfl, by decide, rfl⟩

/-- Claim C6, amended.  On a callback without a code parameter the flat
variant answers 400 and the package variant answers a plain-text error with
the default status 200; neither signals the pending-authorization gate.  In
both variants the gate is signaled only when the callback carries a code and
the token exchange completes successfully. -/
theorem C6_no_code_amended (q : List (String × String)) (ok : Bool)
    (h : q.lookup "code" = none) :
    oauthHandlerDoGET q ok = ⟨400, false, false⟩ ∧
    handleAuthRedirect q ok = ⟨200, false, false⟩ ∧
    (∀ q2 ok2, (handleAuthRedirect q2 ok2).gateSignaled = true →
      (List.lookup "code" q2).isSome ∧ ok2 = true) ∧
    (∀ q2 ok2, (oauthHandlerDoGET q2 ok2).gateSignaled = true →
      (List.lookup "code" q2).isSome ∧ ok2 = true) := by
  refine ⟨?_, ?_, ?_, ?_⟩
  · simp [oauthHandlerDoGET, h]
  · simp [handleAuthRedirect, h]
  · intro q2 ok2 hg
    cases hl : List.lookup "code" q2 <;> cases ok2 <;>
      simp [handleAuthRedirect, hl] at hg ⊢
  · intro q2 ok2 hg
    cases hl : List.lookup "code" q2 <;> cases ok2 <;>
      simp [oauthHandlerDoGET, hl] at hg ⊢

/-- Claim C6, witness for the amended theorem at a concrete codeless query. -/
theorem C6_no_code_witness :
    oauthHandlerDoGET noCodeQuery true = ⟨400, false, false⟩ ∧
    handleAuthRedirect noCodeQuery true = ⟨200, false, false⟩ ∧
    (∀ q2 ok2, (handleAuthRedirect q2 ok2).gateSignaled = true →
      (List.lookup "code" q2).isSome ∧ ok2 = true) ∧
    (∀ q2 ok2, (oauthHandlerDoGET q2 ok2).gateSignaled = true →
      (List.lookup "code" q2).isSome ∧ ok2 = true) :=
  C6_no_code_amended noCodeQuery true rfl

/-- Claim C7: the claim (and the max-with-zero clamp in the code itself)
prescribes a sleep of max(expires_at - now - refresh_margin, 0) = 0 seconds
when the margin-adjusted expiry is already past, but the loop body reads the
seconds attribute of the timedelta instead of its total length: a deficit of
5 seconds (expiry 60, now 5, margin 60) is normalized to days = -1,
seconds = 86395, so the iteration sleeps 86395 seconds instead of refreshing
immediately.  The terminal condition — stop when no refresh token is held —
does hold. -/
theorem C7_sleep_seconds_bug :
    refreshTokenLoopIter (some "R") 60 5 60 = some 86395 ∧
    refreshSleepSpec 60 5 60 = 0 ∧
    refreshSleepCode 60 5 60 ≠ refreshSleepSpec 60 5 60 ∧
    refreshTokenLoopIter none 60 5 60 = none := by
  refine ⟨?_, ?_, ?_, ?_⟩ <;> decide

/-- Claim C8, counterexample.  Supplying bars_back = 0 together with a
first_date does not fail: 0 is falsy in Python, the mutual-exclusivity guard
passes, and a request with the firstdate parameter is issued.  The claim as
universally stated is therefore false. -/
theorem C8_bars_back_counterexample :
    getBars "SPY" 1 "Daily" (some 0) (some 1700000000) none "Default" =
      .ok ⟨"marketdata/barcharts/SPY",
        [("interval", ParamVal.pint 1), ("unit", ParamVal.pstr "Daily"),
         ("sessiontemplate", ParamVal.pstr "Default"),
         ("firstdate", ParamVal.pdate 1700000000)]⟩ :=
  rfl

/-- Claim C8, amended.  A bar fetch supplied with a truthy (nonzero)
bars_back together with a first_date fails with the mutual-exclusivity
ValueError before any request is built, in both variants (get_bars and
aget_bars of the package variant share one definition; the flat variant has
the same guard). -/
theorem C8_bars_back_amended (symbol : String) (interval : Int) (unit : String)
    (n : Int) (fd : Int) (ld : Option Int) (tpl : String) (hn : n ≠ 0) :
    getBars symbol interval unit (some n) (some fd) ld tpl =
      .error "bars_back and first_date should be mutually exclusive. Choose one." ∧
    getBarsSync symbol interval unit (some n) (some fd) ld tpl =
      .error "bars_back and first_date should be mutually exclusive. Choose one." := by
  constructor <;> simp [getBars, getBarsSync, pyIntOptFalsy, hn]

/-- Claim C8, witness for the amended theorem at concrete arguments. -/
theorem C8_bars_back_witness :
    getBars "SPY" 1 "Daily" (some 5) (some 1700000000) none "Default" =
      .error "bars_back and first_date should be mutually exclusive. Choose one." ∧
    getBarsSync "SPY" 1 "Daily" (some 5) (some 1700000000) none "Default" =
      .error "bars_back and first_date should be mutually exclusive. Choose one." :=
  C8_bars_back_amended "SPY" 1 "Daily" 5 1700000000 none "Default" (by decide)

/-- Claim C9, counterexample.  The serialization of an Order built from only
the six required fields has Route among its keys (the constructor defaults
route to Intelligent and to_dict always emits it), so the key set is not
exactly the required keys plus TimeInForce as claimed. -/
theorem C9_order_keys_counterexample :
    dictKeys (Order.to_dict (minimalOrder "ACC1" "MSFT" "10" "Market" "BUY" "DAY")) =
      ["AccountID", "Symbol", "Quantity", "OrderType", "TradeAction",
       "TimeInForce", "Route"] ∧
    "Route" ∈ dictKeys (Order.to_dict (minimalOrder "ACC1" "MSFT" "10" "Market" "BUY" "DAY")) ∧
    dictKeys (Order.to_dict (minimalOrder "ACC1" "MSFT" "10" "Market" "BUY" "DAY")) ≠
      ["AccountID", "Symbol", "Quantity", "OrderType", "TradeAction", "TimeInForce"] :=
  ⟨rfl, by decide, by decide⟩

/-- Claim C9, amended.  An Order built from only the required fields
serializes to exactly the required keys plus the nested TimeInForce duration
object plus Route (defaulted to Intelligent), with no AdvancedOptions key;
adding exactly one optional advanced field (a peg value) adds exactly the
AdvancedOptions key, whose object holds exactly the one key PegValue, and no
other key. -/
theorem C9_order_keys_amended (acct sym qty ot ta dur v : String) :
    Order.to_dict (minimalOrder acct sym qty ot ta dur) =
      [("AccountID", JVal.jstr acct), ("Symbol", JVal.jstr sym),
       ("Quantity", JVal.jstr qty), ("OrderType", JVal.jstr ot),
       ("TradeAction", JVal.jstr ta),
       ("TimeInForce", JVal.jobj [("Duration", JVal.jstr dur)]),
       ("Route", JVal.jstr "Intelligent")] ∧
    dictKeys (Order.to_dict (minimalOrder acct sym qty ot ta dur)) =
      ["AccountID", "Symbol", "Quantity", "OrderType", "TradeAction",
       "TimeInForce", "Route"] ∧
    Order.to_dict { minimalOrder acct sym qty ot ta dur with peg_value := some v } =
      [("AccountID", JVal.jstr acct), ("Symbol", JVal.jstr sym),
       ("Quantity", JVal.jstr qty), ("OrderType", JVal.jstr ot),
       ("TradeAction", JVal.jstr ta),
       ("TimeInForce", JVal.jobj [("Duration", JVal.jstr dur)]),
       ("Route", JVal.jstr "Intelligent"),
       ("AdvancedOptions", JVal.jobj [("PegValue", JVal.jstr v)])] ∧
    dictKeys (Order.to_dict { minimalOrder acct sym qty ot ta dur with peg_value := some v }) =
      ["AccountID", "Symbol", "Quantity", "OrderType", "TradeAction",
       "TimeInForce", "Route", "AdvancedOptions"] :=
  ⟨rfl, rfl, rfl, rfl⟩

/-- Claim C10: for every account-scoped brokerage operation, passing one
account id as a plain string builds the identical request (same endpoint URL
with accounts joined by commas, same parameters) as passing the one-element
list holding it, in the synchronous and the asynchronous variants alike. -/
theorem C10_string_singleton_list (s : String) (oids : AccountsArg)
    (sym : Option AccountsArg) :
    getBalancesRequest (.inl s) = getBalancesRequest (.inr [s]) ∧
    agetBalancesRequest (.inl s) = agetBalancesRequest (.inr [s]) ∧
    getOrdersRequest (.inl s) = getOrdersRequest (.inr [s]) ∧
    agetOrdersRequest (.inl s) = agetOrdersRequest (.inr [s]) ∧
    getOrderByIdRequest (.inl s) oids = getOrderByIdRequest (.inr [s]) oids ∧
    agetOrderByIdRequest (.inl s) oids = agetOrderByIdRequest (.inr [s]) oids ∧
    getPositionsRequest (.inl s) sym = getPositionsRequest (.inr [s]) sym ∧
    agetPositionsRequest (.inl s) sym = agetPositionsRequest (.inr [s]) sym :=
  ⟨rfl, rfl, rfl, rfl, rfl, rfl, rfl, rfl⟩
